import Mathlib

/-!
Verification development for the GuitarTuner repository (src/app.js).

The JavaScript numeric code is shallowly embedded over exact rationals
extended with the IEEE-754 special values `+Infinity`, `-Infinity` and
`NaN`, which the source manipulates implicitly (division by zero in the
YIN normalization, out-of-bounds array reads yielding `undefined`, which
behaves as `NaN` in arithmetic and comparisons).  Floating-point rounding
is abstracted away: arithmetic on finite values is exact rational
arithmetic, matching the spec's description of samples and frequencies as
real numbers.  The note mapper (`Tuner.getNote`), which uses `Math.log`
and `Math.pow`, is embedded over the real numbers.
-/

/-- A JavaScript number: an exact rational, one of the two infinities, or
`NaN`.  `undefined` read from an array behaves as `NaN` in every context
in which the source uses it (arithmetic, relational comparison,
truthiness), so out-of-bounds reads are modelled as `nan`. -/
inductive JSNum where
  | num (q : ℚ)
  | posInf
  | negInf
  | nan
deriving DecidableEq

/-- JS unary minus. -/
def JSNum.neg : JSNum → JSNum
  | JSNum.num q => JSNum.num (-q)
  | JSNum.posInf => JSNum.negInf
  | JSNum.negInf => JSNum.posInf
  | JSNum.nan => JSNum.nan

/-- JS addition (IEEE-754 rules over exact rationals). -/
def JSNum.add : JSNum → JSNum → JSNum
  | JSNum.nan, _ => JSNum.nan
  | _, JSNum.nan => JSNum.nan
  | JSNum.posInf, JSNum.negInf => JSNum.nan
  | JSNum.negInf, JSNum.posInf => JSNum.nan
  | JSNum.posInf, _ => JSNum.posInf
  | _, JSNum.posInf => JSNum.posInf
  | JSNum.negInf, _ => JSNum.negInf
  | _, JSNum.negInf => JSNum.negInf
  | JSNum.num a, JSNum.num b => JSNum.num (a + b)

/-- JS subtraction: `a - b = a + (-b)` (coincides with IEEE subtraction). -/
def JSNum.sub (a b : JSNum) : JSNum := JSNum.add a (JSNum.neg b)

/-- JS multiplication (IEEE-754 rules; `0 * ±Infinity = NaN`). -/
def JSNum.mul : JSNum → JSNum → JSNum
  | JSNum.nan, _ => JSNum.nan
  | _, JSNum.nan => JSNum.nan
  | JSNum.num a, JSNum.num b => JSNum.num (a * b)
  | JSNum.num a, JSNum.posInf =>
      if a = 0 then JSNum.nan else if 0 < a then JSNum.posInf else JSNum.negInf
  | JSNum.num a, JSNum.negInf =>
      if a = 0 then JSNum.nan else if 0 < a then JSNum.negInf else JSNum.posInf
  | JSNum.posInf, JSNum.num b =>
      if b = 0 then JSNum.nan else if 0 < b then JSNum.posInf else JSNum.negInf
  | JSNum.negInf, JSNum.num b =>
      if b = 0 then JSNum.nan else if 0 < b then JSNum.negInf else JSNum.posInf
  | JSNum.posInf, JSNum.posInf => JSNum.posInf
  | JSNum.posInf, JSNum.negInf => JSNum.negInf
  | JSNum.negInf, JSNum.posInf => JSNum.negInf
  | JSNum.negInf, JSNum.negInf => JSNum.posInf

/-- JS division (IEEE-754 rules; `x/0` is `±Infinity` for `x ≠ 0` and `NaN`
for `x = 0`; a finite value divided by an infinity is `0`).  Signed zero is
not modelled: no computation reached by the claims produces `-0`. -/
def JSNum.div : JSNum → JSNum → JSNum
  | JSNum.nan, _ => JSNum.nan
  | _, JSNum.nan => JSNum.nan
  | JSNum.num a, JSNum.num b =>
      if b = 0 then (if a = 0 then JSNum.nan else if 0 < a then JSNum.posInf else JSNum.negInf)
      else JSNum.num (a / b)
  | JSNum.num _, JSNum.posInf => JSNum.num 0
  | JSNum.num _, JSNum.negInf => JSNum.num 0
  | JSNum.posInf, JSNum.num b => if 0 ≤ b then JSNum.posInf else JSNum.negInf
  | JSNum.negInf, JSNum.num b => if 0 ≤ b then JSNum.negInf else JSNum.posInf
  | JSNum.posInf, _ => JSNum.nan
  | JSNum.negInf, _ => JSNum.nan

/-- JS `<` comparison: any comparison involving `NaN` is `false`. -/
def JSNum.lt : JSNum → JSNum → Bool
  | JSNum.nan, _ => false
  | _, JSNum.nan => false
  | JSNum.num a, JSNum.num b => decide (a < b)
  | JSNum.num _, JSNum.posInf => true
  | JSNum.num _, JSNum.negInf => false
  | JSNum.posInf, _ => false
  | JSNum.negInf, JSNum.negInf => false
  | JSNum.negInf, _ => true

/-- JS `Math.abs`. -/
def JSNum.absJ : JSNum → JSNum
  | JSNum.num q => JSNum.num (if q < 0 then -q else q)
  | JSNum.nan => JSNum.nan
  | _ => JSNum.posInf

/-- JS truthiness of a number (`if (x)`): `0` and `NaN` are falsy. -/
def JSNum.truthy : JSNum → Bool
  | JSNum.num q => decide (q ≠ 0)
  | JSNum.nan => false
  | _ => true

/-- JS `isNaN` on a number. -/
def JSNum.isNaNJ : JSNum → Bool
  | JSNum.nan => true
  | _ => false

/-- Computable floor of a rational (`Int.fdiv` of numerator by denominator
is exactly `⌊q⌋` since the denominator is positive). -/
def qFloor (q : ℚ) : ℤ := Int.fdiv q.num q.den

/-- JS `Math.floor`: identity on the infinities and `NaN`. -/
def JSNum.floorJ : JSNum → JSNum
  | JSNum.num q => JSNum.num (qFloor q)
  | x => x

/-- Read position `i` of a rational sample buffer as a JS number:
out-of-bounds reads give `undefined`, i.e. `NaN` in arithmetic. -/
def qIdx (l : List ℚ) (i : ℕ) : JSNum :=
  match l.get? i with
  | some v => JSNum.num v
  | none => JSNum.nan

/-- Read an integer position of a JS-number array; negative or
out-of-bounds indices give `undefined` (`NaN`). -/
def idxZ (l : List JSNum) (i : ℤ) : JSNum :=
  if 0 ≤ i then (l.get? i.toNat).getD JSNum.nan else JSNum.nan

/-- Read a JS-number position of a JS-number array (`yinBuffer[Math.floor(tau)]`):
non-integer, negative, infinite or `NaN` indices give `undefined` (`NaN`). -/
def jsIdx (l : List JSNum) : JSNum → JSNum
  | JSNum.num q => if q.den = 1 then idxZ l q.num else JSNum.nan
  | _ => JSNum.nan

/-- `YinDetector` constructor default `threshold = 0.1` (the only
instantiation, in `Tuner`, uses the default). -/
def YinDetector.threshold : ℚ := 1/10

/-- YIN step 1 (src/app.js lines 40–45): the difference function
`d(tau) = Σ_{i<half} (x[i] - x[i+tau])²` accumulated from `0`. -/
def YinDetector.diff (buf : List ℚ) (half tau : ℕ) : JSNum :=
  (List.range half).foldl
    (fun acc i =>
      let delta := JSNum.sub (qIdx buf i) (qIdx buf (i + tau))
      JSNum.add acc (JSNum.mul delta delta))
    (JSNum.num 0)

/-- YIN step 2 (lines 49–54): `yinBuffer[0] = 1`, then for `tau ≥ 1`
`runningSum += d(tau); yinBuffer[tau] = d(tau) * (tau / runningSum)`.
On an all-zero prefix `runningSum` is `0`, `tau / 0 = +Infinity` and
`0 * Infinity = NaN`, exactly as in JS.  For `half = 0` the assignment
`yinBuffer[0] = 1` to the empty typed array is silently dropped. -/
def YinDetector.normalize (buf : List ℚ) (half : ℕ) : List JSNum :=
  if half = 0 then []
  else
    (((List.range (half - 1)).map (fun t => t + 1)).foldl
      (fun p tau =>
        let d := YinDetector.diff buf half tau
        let rs := JSNum.add p.1 d
        (rs, p.2 ++ [JSNum.mul d (JSNum.div (JSNum.num (tau : ℚ)) rs)]))
      (JSNum.num 0, [JSNum.num 1])).2

/-- YIN step 3 inner `while` (lines 61–63): descend to the local minimum of
the dip: `while (i + 1 < half && y[i+1] < y[i]) i++`.  The first argument is
fuel; `half` steps always suffice since `i` increases and stays below `half`. -/
def YinDetector.descend (y : List JSNum) (half : ℕ) : ℕ → ℕ → ℕ
  | 0, i => i
  | Nat.succ fuel, i =>
      if i + 1 < half ∧ JSNum.lt (idxZ y ((i : ℤ) + 1)) (idxZ y (i : ℤ)) = true then
        YinDetector.descend y half fuel (i + 1)
      else i

/-- YIN step 3 outer loop (lines 58–67): scan `i = 1, 2, ...` for the first
`y[i] < threshold`; on a hit descend the dip and return that index, else
return `-1`.  The first argument is fuel; `half + 1` steps suffice since the
scan stops as soon as `i` reaches `half`. -/
def YinDetector.search (y : List JSNum) (half : ℕ) (threshold : ℚ) : ℕ → ℕ → ℤ
  | 0, _ => -1
  | Nat.succ fuel, i =>
      if i < half then
        if JSNum.lt (idxZ y (i : ℤ)) (JSNum.num threshold) = true then
          ((YinDetector.descend y half half i : ℕ) : ℤ)
        else YinDetector.search y half threshold fuel (i + 1)
      else -1

/-- YIN fallback (lines 70–78): global minimum of `y[1..half-1]` starting
from `minVal = 100`, `tau = -1`; comparisons with `NaN` entries are false,
so `NaN` entries are skipped, as in JS. -/
def YinDetector.globalMin (y : List JSNum) (half : ℕ) : ℤ :=
  (((List.range half).drop 1).foldl
    (fun p i => if JSNum.lt (idxZ y (i : ℤ)) p.1 = true then (idxZ y (i : ℤ), (i : ℤ)) else p)
    (JSNum.num 100, (-1 : ℤ))).2

/-- `YinDetector.getPitch` (src/app.js lines 29–96).  Steps: difference
function, cumulative mean normalization, absolute-threshold search with
global-minimum fallback, parabolic interpolation on interior `tau`,
noise gate `probability < 0.6`, and finally `sampleRate / tau`. -/
def YinDetector.getPitch (float32AudioBuffer : List ℚ) (sampleRate : ℚ) : JSNum :=
  let half := float32AudioBuffer.length / 2
  let y := YinDetector.normalize float32AudioBuffer half
  let t0 := YinDetector.search y half YinDetector.threshold (half + 1) 1
  let tau : ℤ := if t0 = -1 then YinDetector.globalMin y half else t0
  let tauJ : JSNum :=
    if 1 < tau ∧ tau < (half : ℤ) - 1 then
      let s0 := idxZ y (tau - 1)
      let s1 := idxZ y tau
      let s2 := idxZ y (tau + 1)
      JSNum.add (JSNum.num (tau : ℚ))
        (JSNum.div (JSNum.sub s2 s0)
          (JSNum.mul (JSNum.num 2) (JSNum.sub (JSNum.sub (JSNum.mul (JSNum.num 2) s1) s2) s0)))
    else JSNum.num (tau : ℚ)
  let probability := JSNum.sub (JSNum.num 1) (jsIdx y (JSNum.floorJ tauJ))
  if JSNum.lt probability (JSNum.num (6/10)) = true then JSNum.num (-1)
  else JSNum.div (JSNum.num sampleRate) tauJ

/-- Decides `Math.sqrt x < c` for a rational bound `0 < c` without
computing the irrational square root: for a finite `x ≥ 0` this is
`x < c²` (square-root monotonicity); `Math.sqrt` of a negative number is
`NaN`, of `+Infinity` is `+Infinity`, and any comparison involving `NaN`
is false, so all remaining cases decide to `false`.
`jsSqrtLt_iff_sqrt_lt` below certifies the finite nonnegative case. -/
def jsSqrtLt (x : JSNum) (c : ℚ) : Bool :=
  match x with
  | JSNum.num q => decide (0 ≤ q ∧ q < c * c)
  | _ => false

/-- Buffer trimming of `AutocorrelationDetector.getPitch` (src/app.js
lines 115–125): scan forward over `i < SIZE/2` for the first
`|buffer[i]| < 0.2` (default `r1 = 0`), scan backward via
`buffer[SIZE - i]` for `1 ≤ i < SIZE/2` (default `r2 = SIZE - 1`), then
`buffer.slice(r1, r2)`.  `List.find?` returns the first index satisfying
the conjunction, which equals the first `break` of the JS loop because
the bound `2*i < SIZE` is monotone. -/
def AutocorrelationDetector.trim (buf : List ℚ) : List ℚ :=
  let SIZE := buf.length
  let r1 : ℕ :=
    ((List.range SIZE).find? (fun i =>
      decide (2 * i < SIZE) && JSNum.lt (JSNum.absJ (qIdx buf i)) (JSNum.num (1/5)))).getD 0
  let r2 : ℤ :=
    match ((List.range SIZE).drop 1).find? (fun i =>
      decide (2 * i < SIZE) && JSNum.lt (JSNum.absJ (qIdx buf (SIZE - i))) (JSNum.num (1/5))) with
    | some i => (SIZE : ℤ) - (i : ℤ)
    | none => (SIZE : ℤ) - 1
  (buf.drop r1).take (r2 - (r1 : ℤ)).toNat

/-- Unnormalized autocorrelation (lines 126–132):
`c[i] = Σ_{j < N-i} sub[j] * sub[j+i]`, each entry accumulated from `0`. -/
def AutocorrelationDetector.corr (sub : List ℚ) : List JSNum :=
  (List.range sub.length).map (fun i =>
    (List.range (sub.length - i)).foldl
      (fun acc j => JSNum.add acc (JSNum.mul (qIdx sub j) (qIdx sub (j + i))))
      (JSNum.num 0))

/-- Zero-lag peak skip (lines 134–135): `while (c[d] > c[d+1]) d++`.
The first argument is fuel; `c.length + 1` steps suffice because the
comparison is false as soon as `c[d+1]` is out of bounds (`NaN`). -/
def AutocorrelationDetector.skipPeak (c : List JSNum) : ℕ → ℕ → ℕ
  | 0, d => d
  | Nat.succ fuel, d =>
      if JSNum.lt (idxZ c ((d : ℤ) + 1)) (idxZ c (d : ℤ)) = true then
        AutocorrelationDetector.skipPeak c fuel (d + 1)
      else d

/-- `AutocorrelationDetector.getPitch` (src/app.js lines 103–152): RMS
silence gate at `0.01`, trim, autocorrelation, zero-lag skip, peak search
from lag `d` (starting `maxval = -1`, `maxpos = -1`), parabolic
refinement guarded by JS truthiness of `a`, and `sampleRate / T0`. -/
def AutocorrelationDetector.getPitch (buf : List ℚ) (sampleRate : ℚ) : JSNum :=
  let SIZE := buf.length
  let sumSq := (List.range SIZE).foldl
    (fun acc i => JSNum.add acc (JSNum.mul (qIdx buf i) (qIdx buf i))) (JSNum.num 0)
  if jsSqrtLt (JSNum.div sumSq (JSNum.num (SIZE : ℚ))) (1/100) = true then JSNum.num (-1)
  else
    let sub := AutocorrelationDetector.trim buf
    let N := sub.length
    let c := AutocorrelationDetector.corr sub
    let d := AutocorrelationDetector.skipPeak c (N + 1) 0
    let T0 : ℤ := (((List.range N).drop d).foldl
      (fun p i => if JSNum.lt p.1 (idxZ c (i : ℤ)) = true then (idxZ c (i : ℤ), (i : ℤ)) else p)
      (JSNum.num (-1), (-1 : ℤ))).2
    let x1 := idxZ c (T0 - 1)
    let x2 := idxZ c T0
    let x3 := idxZ c (T0 + 1)
    let a := JSNum.div (JSNum.sub (JSNum.add x1 x3) (JSNum.mul (JSNum.num 2) x2)) (JSNum.num 2)
    let b := JSNum.div (JSNum.sub x3 x1) (JSNum.num 2)
    let T0J : JSNum :=
      if JSNum.truthy a = true then
        JSNum.sub (JSNum.num (T0 : ℚ)) (JSNum.div b (JSNum.mul (JSNum.num 2) a))
      else JSNum.num (T0 : ℚ)
    JSNum.div (JSNum.num sampleRate) T0J

/-- `TunerDefaults.FFTSIZE` (src/app.js line 7). -/
def TunerDefaults.FFTSIZE : ℕ := 2048

/-- `TunerDefaults.SmoothingWindow` (src/app.js line 8). -/
def TunerDefaults.SmoothingWindow : ℕ := 5

/-- The two detector strategies held in `this.detectors` (src/app.js
lines 162–165). -/
inductive DetectorKey where
  | yin
  | autocorr
deriving DecidableEq

/-- The mutable `Tuner` state relevant to the per-frame engine: the
active strategy (`this.currentDetector`), the smoothing FIFO
(`this.smoothingBuffer`) and the session flag (`this.isPlaying`).
Audio-device and DOM handles are external collaborators and carry no core
state.  `currentDetector` ranges here over the two detector strategies,
the values the field holds in every frame-processing scenario below; the
change handler, which alone can also store a non-detector value inherited
from `Object.prototype` in the field, is modelled separately on
`DetectorSlot`. -/
structure TunerState where
  currentDetector : DetectorKey
  smoothingBuffer : List JSNum
  isPlaying : Bool
deriving DecidableEq

/-- The own property names of `Object.prototype` (ECMAScript standard
built-ins).  A plain object literal such as `this.detectors` inherits all
of them through its prototype chain, and every one of their values (the
built-in functions, and the `Object.prototype` object itself for
`"__proto__"`) is truthy. -/
def objectPrototypeMembers : List String :=
  ["constructor", "hasOwnProperty", "isPrototypeOf", "propertyIsEnumerable",
   "toLocaleString", "toString", "valueOf", "__proto__",
   "__defineGetter__", "__defineSetter__", "__lookupGetter__", "__lookupSetter__"]

/-- A value the source can assign to `this.currentDetector`: one of the
two `PitchDetector` strategies of `this.detectors` (src/app.js lines
162–165), or a non-detector value inherited from `Object.prototype` that
the change handler stores when given that member's name. -/
inductive DetectorSlot where
  | strategy (k : DetectorKey)
  | foreign (name : String)
deriving DecidableEq

/-- The JS property lookup `this.detectors[algo]` (src/app.js lines
162–165 and 202), with `some` marking the truthy results the guard
`if (this.detectors[algo])` accepts: the own keys `"yin"` and
`"autocorr"` hold the detector instances; any other name falls through
to the prototype chain, where the `Object.prototype` members are found
(all truthy); remaining names yield `undefined`, which is falsy. -/
def Tuner.lookupDetector (name : String) : Option DetectorSlot :=
  if name = "yin" then some (DetectorSlot.strategy DetectorKey.yin)
  else if name = "autocorr" then some (DetectorSlot.strategy DetectorKey.autocorr)
  else if name ∈ objectPrototypeMembers then some (DetectorSlot.foreign name)
  else none

/-- The `algorithm-select` change handler (src/app.js lines 200–206):
`if (this.detectors[algo]) { this.currentDetector = this.detectors[algo]; }`.
The handler touches only `this.currentDetector` and returns no failure
value, so it is modelled as a function on that slot: a truthy lookup
(own key or inherited `Object.prototype` member) overwrites the slot
with the looked-up value; an absent name is a silent no-op. -/
def Tuner.selectDetector (cur : DetectorSlot) (name : String) : DetectorSlot :=
  match Tuner.lookupDetector name with
  | some v => v
  | none => cur

/-- The strategy call `this.currentDetector.getPitch(buffer, sampleRate)`
(src/app.js line 255). -/
def Tuner.getPitchOf : DetectorKey → List ℚ → ℚ → JSNum
  | DetectorKey.yin, buf, r => YinDetector.getPitch buf r
  | DetectorKey.autocorr, buf, r => AutocorrelationDetector.getPitch buf r

/-- Smoothing push (src/app.js lines 262–265): `push(frequency)`, then
`if (length > smoothingWindow) shift()`. -/
def Tuner.smoothPush (buf : List JSNum) (f : JSNum) : List JSNum :=
  if TunerDefaults.SmoothingWindow < (buf ++ [f]).length then (buf ++ [f]).drop 1
  else buf ++ [f]

/-- `smoothingBuffer.reduce((a, b) => a + b) / smoothingBuffer.length`
(src/app.js line 268).  `reduce` without an initial value starts from the
first element; on an empty array it would throw, which is unreachable
here because the mean is taken right after a push. -/
def Tuner.mean (l : List JSNum) : JSNum :=
  match l with
  | [] => JSNum.nan
  | h :: t => JSNum.div (List.foldl JSNum.add h t) (JSNum.num (l.length : ℚ))

/-- The frame step of `Tuner.update` after the strategy call (src/app.js
lines 257–271): `if (frequency === -1 || isNaN(frequency)) return;`, else
push into the smoothing FIFO and hand the window mean to
`getNote`/`updateUI`.  The second component is the smoothed frequency
passed on, `none` when the frame is dropped (no note descriptor). -/
def Tuner.handleFrequency (st : TunerState) (frequency : JSNum) : TunerState × Option JSNum :=
  if frequency = JSNum.num (-1) ∨ JSNum.isNaNJ frequency = true then (st, none)
  else
    (TunerState.mk st.currentDetector (Tuner.smoothPush st.smoothingBuffer frequency) st.isPlaying,
     some (Tuner.mean (Tuner.smoothPush st.smoothingBuffer frequency)))

/-- `Tuner.update` (src/app.js lines 247–272) restricted to its core
effect on one frame: early return when not playing, the strategy call,
then `Tuner.handleFrequency`.  Self-rescheduling via
`requestAnimationFrame` and the analyser read are the capture
collaborator's side and carry no core state. -/
def Tuner.update (st : TunerState) (buf : List ℚ) (sampleRate : ℚ) : TunerState × Option JSNum :=
  if st.isPlaying = false then (st, none)
  else Tuner.handleFrequency st (Tuner.getPitchOf st.currentDetector buf sampleRate)

/-- `Tuner.stop` (src/app.js lines 236–245) restricted to core state: it
sets `isPlaying := false` and resets the UI; it does NOT touch
`this.smoothingBuffer`. -/
def Tuner.stop (st : TunerState) : TunerState :=
  TunerState.mk st.currentDetector st.smoothingBuffer false

/-- `Tuner.start` (src/app.js lines 209–234) restricted to core state:
on success it sets `isPlaying := true`; audio-device setup is an external
collaborator.  It does not touch `this.smoothingBuffer` either. -/
def Tuner.start (st : TunerState) : TunerState :=
  TunerState.mk st.currentDetector st.smoothingBuffer true

/-- `this.noteStrings` (src/app.js line 174), the 12 pitch-class names
from C to B in semitone order, written as two halves appended. -/
def Tuner.noteStrings : List String :=
  ["C", "C#", "D", "D#", "E", "F"] ++ ["F#", "G", "G#", "A", "A#", "B"]

/-- JS `Math.round` on a real value: round half toward `+∞`,
`Math.round(x) = ⌊x + 0.5⌋`. -/
noncomputable def jsRound (x : ℝ) : ℤ := ⌊x + 1/2⌋

/-- JS `%` on integers: truncated remainder (sign of the dividend), e.g.
`(-1) % 12 = -1`. -/
def jsRem (a b : ℤ) : ℤ := Int.tmod a b

/-- `noteNum` of `Tuner.getNote` (src/app.js line 275):
`12 * (Math.log(frequency / 440) / Math.log(2))`. -/
noncomputable def Tuner.noteNumOf (frequency : ℝ) : ℝ :=
  12 * (Real.log (frequency / 440) / Real.log 2)

/-- `midi` of `Tuner.getNote` (line 276): `Math.round(noteNum) + 69`. -/
noncomputable def Tuner.midiOf (frequency : ℝ) : ℤ :=
  jsRound (Tuner.noteNumOf frequency) + 69

/-- `desiredFreq` of `Tuner.getNote` (line 282):
`440 * Math.pow(2, (midi - 69) / 12)`. -/
noncomputable def Tuner.desiredFreqOf (frequency : ℝ) : ℝ :=
  440 * (2 : ℝ) ^ (((Tuner.midiOf frequency : ℝ) - 69) / 12)

/-- `cents` of `Tuner.getNote` (line 283):
`1200 * Math.log(frequency / desiredFreq) / Math.log(2)`. -/
noncomputable def Tuner.centsOf (frequency : ℝ) : ℝ :=
  1200 * Real.log (frequency / Tuner.desiredFreqOf frequency) / Real.log 2

/-- The note descriptor returned by `Tuner.getNote` (src/app.js line 285):
`{ name, octave, frequency, cents, note }`.  `name` is an `Option` because
`this.noteStrings[note]` is `undefined` when `note` falls outside
`[0, 12)`. -/
structure NoteData where
  name : Option String
  octave : ℤ
  frequency : ℝ
  cents : ℝ
  note : ℤ

/-- `Tuner.getNote` (src/app.js lines 274–286).  `note = midi % 12` with
the JS truncated remainder; `octave = Math.floor(midi / 12) - 1` is the
floor division `Int.fdiv`. -/
noncomputable def Tuner.getNote (frequency : ℝ) : NoteData :=
  NoteData.mk
    (if 0 ≤ jsRem (Tuner.midiOf frequency) 12
     then Tuner.noteStrings.get? (jsRem (Tuner.midiOf frequency) 12).toNat
     else none)
    (Int.fdiv (Tuner.midiOf frequency) 12 - 1)
    frequency
    (Tuner.centsOf frequency)
    (jsRem (Tuner.midiOf frequency) 12)

/-- Faithfulness of the square-root gate: for a finite nonnegative value
and a positive rational bound, `jsSqrtLt` decides exactly
`Real.sqrt q < c`, the comparison the source writes as
`Math.sqrt(rms / SIZE) < 0.01`. -/
theorem jsSqrtLt_iff_sqrt_lt (q c : ℚ) (hq : 0 ≤ q) (hc : 0 < c) :
    jsSqrtLt (JSNum.num q) c = true ↔ Real.sqrt (q : ℝ) < (c : ℝ) := by
  have h := Real.sqrt_lt' (x := (q : ℝ)) (y := (c : ℝ)) (by exact_mod_cast hc)
  simp only [jsSqrtLt, decide_eq_true_eq]
  rw [h]
  constructor
  · rintro ⟨-, h2⟩
    have h3 : (q : ℝ) < (c : ℝ) * (c : ℝ) := by exact_mod_cast h2
    nlinarith [h3]
  · intro h2
    refine ⟨hq, ?_⟩
    have h3 : (q : ℝ) < ((c : ℝ)) ^ 2 := h2
    have h4 : (q : ℝ) < (c : ℝ) * (c : ℝ) := by nlinarith [h3]
    exact_mod_cast h4

/-- The natural logarithm of `2` is positive. -/
theorem log_two_pos : (0:ℝ) < Real.log 2 := Real.log_pos (by norm_num)

/-- `noteNum` at an input given as `440 · 2^y` is exactly `12 · y`. -/
theorem Tuner.noteNumOf_rpow (y : ℝ) : Tuner.noteNumOf (440 * (2:ℝ) ^ y) = 12 * y := by
  unfold Tuner.noteNumOf
  rw [mul_div_cancel_left₀ _ (by norm_num : (440:ℝ) ≠ 0)]
  rw [Real.log_rpow (by norm_num : (0:ℝ) < 2)]
  rw [mul_div_cancel_right₀ _ (ne_of_gt log_two_pos)]

/-- `cents` in terms of `noteNum`: for a positive frequency,
`cents = 100 * (noteNum - round(noteNum))`. -/
theorem Tuner.centsOf_formula (f : ℝ) (hf : 0 < f) :
    Tuner.centsOf f = 100 * (Tuner.noteNumOf f - (jsRound (Tuner.noteNumOf f) : ℝ)) := by
  have h2 : (0:ℝ) < 2 := by norm_num
  have hl2 : Real.log 2 ≠ 0 := ne_of_gt log_two_pos
  have hD : (0:ℝ) < 440 * (2:ℝ) ^ (((Tuner.midiOf f : ℝ) - 69) / 12) := by positivity
  have hnn : Tuner.noteNumOf f = 12 * ((Real.log f - Real.log 440) / Real.log 2) := by
    unfold Tuner.noteNumOf
    rw [Real.log_div (ne_of_gt hf) (by norm_num)]
  have hmid : ((Tuner.midiOf f : ℝ)) = (jsRound (Tuner.noteNumOf f) : ℝ) + 69 := by
    unfold Tuner.midiOf
    push_cast
    ring
  unfold Tuner.centsOf Tuner.desiredFreqOf
  rw [Real.log_div (ne_of_gt hf) (ne_of_gt hD)]
  rw [Real.log_mul (by norm_num) (ne_of_gt (Real.rpow_pos_of_pos h2 _))]
  rw [Real.log_rpow h2]
  rw [hmid, hnn]
  field_simp
  ring

/-- Claim C1.  On the all-zero (silent) buffer of length 8 at sample rate
44100, `AutocorrelationDetector.getPitch` returns the sentinel `-1`
(RMS gate), but `YinDetector.getPitch` returns `-44100`, not `-1`: the
zero running sum makes every normalized value `NaN`, both searches leave
`tau = -1`, `probability = 1 - yinBuffer[-1]` is `NaN`, the
`probability < 0.6` noise gate is bypassed (comparisons with `NaN` are
false) and the result is `sampleRate / (-1)`. -/
theorem silent_buffer_detector_results :
    AutocorrelationDetector.getPitch [0,0,0,0,0,0,0,0] 44100 = JSNum.num (-1) ∧
    YinDetector.getPitch [0,0,0,0,0,0,0,0] 44100 = JSNum.num (-44100) ∧
    JSNum.num (-44100 : ℚ) ≠ JSNum.num (-1) := by
  refine ⟨by with_unfolding_all rfl, by with_unfolding_all rfl, by with_unfolding_all decide⟩

/-- Claim C2.  `YinDetector.getPitch` can return a negative value that is
not the `-1` sentinel: on the all-zero buffer of length 4 at sample rate
48000 it returns `-48000`, which is neither `-1` nor a strictly positive
frequency. -/
theorem yin_returns_negative_nonsentinel :
    YinDetector.getPitch [0,0,0,0] 48000 = JSNum.num (-48000) ∧
    JSNum.num (-48000 : ℚ) ≠ JSNum.num (-1) ∧ (-48000 : ℚ) < 0 := by
  refine ⟨by with_unfolding_all rfl, by with_unfolding_all decide, by norm_num⟩

/-- Claim C3.  The buffer `[0.5]` passes the RMS gate, its trimmed
analysis window is empty (fewer than 3 samples), and
`AutocorrelationDetector.getPitch` does not return the sentinel: the
monotone-skip and parabolic-refinement steps read `c[-2]`, `c[-1]`,
`c[0]`, `c[1]` of the empty autocorrelation array (all `undefined`),
`maxpos` stays `-1`, and the result is `sampleRate / (-1) = -44100`. -/
theorem autocorr_degenerate_trim_unguarded :
    (AutocorrelationDetector.trim [(1/2 : ℚ)]).length = 0 ∧
    AutocorrelationDetector.getPitch [(1/2 : ℚ)] 44100 = JSNum.num (-44100) ∧
    JSNum.num (-44100 : ℚ) ≠ JSNum.num (-1) := by
  refine ⟨by with_unfolding_all rfl, by with_unfolding_all rfl, by with_unfolding_all decide⟩

/-- Claim C4.  At the frequency `440 · 2^(-70/12)` (≈ 7.73 Hz) the rounded
MIDI number is `-1`, the pitch-class index `midi % 12` computed with the
JS truncated remainder is `-1 ∉ [0, 12)`, and the note name is
`undefined` (`none`), not one of the 12 pitch-class strings. -/
theorem getNote_negative_pitch_class :
    (Tuner.getNote (440 * (2:ℝ) ^ ((-70 : ℝ) / 12))).note = -1 ∧
    (Tuner.getNote (440 * (2:ℝ) ^ ((-70 : ℝ) / 12))).name = none := by
  have hm : Tuner.midiOf (440 * (2:ℝ) ^ ((-70 : ℝ) / 12)) = -1 := by
    unfold Tuner.midiOf jsRound
    rw [Tuner.noteNumOf_rpow]
    have h : (12 : ℝ) * ((-70 : ℝ)/12) + 1/2 = -139/2 := by norm_num
    rw [h]
    have hf : ⌊(-139/2 : ℝ)⌋ = -70 := by
      rw [Int.floor_eq_iff]
      norm_num
    rw [hf]
    norm_num
  have hrem : jsRem (-1) 12 = -1 := by decide
  refine ⟨?_, ?_⟩
  · show jsRem (Tuner.midiOf _) 12 = -1
    rw [hm, hrem]
  · show (if 0 ≤ jsRem (Tuner.midiOf (440 * (2:ℝ) ^ ((-70 : ℝ) / 12))) 12
      then Tuner.noteStrings.get?
        (jsRem (Tuner.midiOf (440 * (2:ℝ) ^ ((-70 : ℝ) / 12))) 12).toNat
      else none) = none
    rw [hm, hrem]
    norm_num

/-- Claim C5 (amended).  For every positive frequency the cents value of
`Tuner.getNote` lies in the half-open interval `[-50, 50)`: rounding half
toward `+∞` makes `-50` attainable and `+50` unattainable, the reverse of
the claimed `(-50, 50]`. -/
theorem getNote_cents_range (f : ℝ) (hf : 0 < f) :
    -50 ≤ (Tuner.getNote f).cents ∧ (Tuner.getNote f).cents < 50 := by
  have hc : (Tuner.getNote f).cents = Tuner.centsOf f := rfl
  rw [hc, Tuner.centsOf_formula f hf]
  have h1 : (jsRound (Tuner.noteNumOf f) : ℝ) ≤ Tuner.noteNumOf f + 1/2 := by
    unfold jsRound
    exact Int.floor_le _
  have h2 : Tuner.noteNumOf f + 1/2 < (jsRound (Tuner.noteNumOf f) : ℝ) + 1 := by
    unfold jsRound
    exact Int.lt_floor_add_one _
  constructor <;> linarith

/-- Claim C5, witness for `getNote_cents_range` at frequency 440. -/
theorem getNote_cents_range_witness :
    (0:ℝ) < 440 ∧ (-50 ≤ (Tuner.getNote 440).cents ∧ (Tuner.getNote 440).cents < 50) :=
  ⟨by norm_num, getNote_cents_range 440 (by norm_num)⟩

/-- Claim C5, counterexample to the interval `(-50, 50]` as claimed: at
the frequency `440 · 2^(1/24)`, exactly halfway between A4 and A#4, the
cents value is exactly `-50`, which is outside `(-50, 50]`. -/
theorem getNote_cents_boundary :
    (Tuner.getNote (440 * (2:ℝ) ^ ((1:ℝ)/24))).cents = -50 ∧
    ¬(-50 < (Tuner.getNote (440 * (2:ℝ) ^ ((1:ℝ)/24))).cents ∧
      (Tuner.getNote (440 * (2:ℝ) ^ ((1:ℝ)/24))).cents ≤ 50) := by
  have hf : (0:ℝ) < 440 * (2:ℝ) ^ ((1:ℝ)/24) := by positivity
  have hval : (Tuner.getNote (440 * (2:ℝ) ^ ((1:ℝ)/24))).cents = -50 := by
    have hc : (Tuner.getNote (440 * (2:ℝ) ^ ((1:ℝ)/24))).cents
        = Tuner.centsOf (440 * (2:ℝ) ^ ((1:ℝ)/24)) := rfl
    rw [hc, Tuner.centsOf_formula _ hf, Tuner.noteNumOf_rpow]
    have h12 : (12:ℝ) * ((1:ℝ)/24) = 1/2 := by norm_num
    rw [h12]
    have hj : jsRound (1/2 : ℝ) = 1 := by
      unfold jsRound
      have h : (1/2 : ℝ) + 1/2 = 1 := by norm_num
      rw [h]
      exact Int.floor_one
    rw [hj]
    norm_num
  refine ⟨hval, ?_⟩
  rw [hval]
  intro h
  exact absurd h.1 (by norm_num)

/-- Claim C6.  The smoother keeps at most `SmoothingWindow = 5` values;
pushing `[100, 102, 98, 101, 99]` into an empty window fills it without
eviction, a sixth value `200` evicts the oldest (`100`) leaving
`[102, 98, 101, 99, 200]`, and the returned value is the arithmetic mean
`120` of that window. -/
theorem smoothing_window_fifo :
    (∀ (b : List JSNum) (f : JSNum), b.length ≤ TunerDefaults.SmoothingWindow →
        (Tuner.smoothPush b f).length ≤ TunerDefaults.SmoothingWindow) ∧
    List.foldl Tuner.smoothPush []
        [JSNum.num 100, JSNum.num 102, JSNum.num 98, JSNum.num 101, JSNum.num 99]
      = [JSNum.num 100, JSNum.num 102, JSNum.num 98, JSNum.num 101, JSNum.num 99] ∧
    Tuner.smoothPush
        [JSNum.num 100, JSNum.num 102, JSNum.num 98, JSNum.num 101, JSNum.num 99]
        (JSNum.num 200)
      = [JSNum.num 102, JSNum.num 98, JSNum.num 101, JSNum.num 99, JSNum.num 200] ∧
    Tuner.mean [JSNum.num 102, JSNum.num 98, JSNum.num 101, JSNum.num 99, JSNum.num 200]
      = JSNum.num 120 := by
  refine ⟨?_, by with_unfolding_all rfl, by with_unfolding_all rfl, by with_unfolding_all rfl⟩
  intro b f h
  simp only [Tuner.smoothPush, TunerDefaults.SmoothingWindow] at *
  split
  · simp only [List.length_drop, List.length_append, List.length_cons, List.length_nil]
    omega
  · rename_i hc
    simp only [List.length_append, List.length_cons, List.length_nil] at hc ⊢
    omega

/-- Claim C6, witness for the bounded-length conjunct of
`smoothing_window_fifo` at a full window of five values. -/
theorem smoothing_window_fifo_witness :
    ([JSNum.num 1, JSNum.num 2, JSNum.num 3, JSNum.num 4, JSNum.num 5] : List JSNum).length
        ≤ TunerDefaults.SmoothingWindow ∧
    (Tuner.smoothPush [JSNum.num 1, JSNum.num 2, JSNum.num 3, JSNum.num 4, JSNum.num 5]
        (JSNum.num 6)).length ≤ TunerDefaults.SmoothingWindow :=
  ⟨by decide, smoothing_window_fifo.1 _ _ (by decide)⟩

/-- Claim C7.  On any playing frame where the active detector returns the
`-1` sentinel, `Tuner.update` leaves the state (in particular the
smoothing window) exactly unchanged and produces no note descriptor. -/
theorem sentinel_frame_preserves_window (st : TunerState) (buf : List ℚ) (r : ℚ)
    (hp : st.isPlaying = true)
    (hs : Tuner.getPitchOf st.currentDetector buf r = JSNum.num (-1)) :
    Tuner.update st buf r = (st, none) := by
  simp only [Tuner.update, hp, Bool.true_eq_false, if_false, hs, Tuner.handleFrequency]
  simp

/-- Claim C7, witness for `sentinel_frame_preserves_window`: the
autocorrelation detector on a silent length-4 buffer returns `-1` and the
frame leaves the window `[100]` untouched. -/
theorem sentinel_frame_preserves_window_witness :
    (TunerState.mk DetectorKey.autocorr [JSNum.num 100] true).isPlaying = true ∧
    Tuner.getPitchOf (TunerState.mk DetectorKey.autocorr [JSNum.num 100] true).currentDetector
        [0,0,0,0] 44100 = JSNum.num (-1) ∧
    Tuner.update (TunerState.mk DetectorKey.autocorr [JSNum.num 100] true) [0,0,0,0] 44100
      = (TunerState.mk DetectorKey.autocorr [JSNum.num 100] true, none) :=
  ⟨rfl, by with_unfolding_all rfl,
   sentinel_frame_preserves_window _ _ _ rfl (by with_unfolding_all rfl)⟩

/-- Claim C8.  `Tuner.stop` does not clear the smoothing window: after a
session whose window holds five values of 100, stopping and restarting
retains all five, so the next valid estimate 200 is returned as the
smoothed value 120 over the window `[100, 100, 100, 100, 200]` instead of
being returned unsmoothed from a window of length 1. -/
theorem stop_retains_smoothing_history :
    (Tuner.stop (TunerState.mk DetectorKey.yin
        [JSNum.num 100, JSNum.num 100, JSNum.num 100, JSNum.num 100, JSNum.num 100]
        true)).smoothingBuffer
      = [JSNum.num 100, JSNum.num 100, JSNum.num 100, JSNum.num 100, JSNum.num 100] ∧
    Tuner.handleFrequency
        (Tuner.start (Tuner.stop (TunerState.mk DetectorKey.yin
          [JSNum.num 100, JSNum.num 100, JSNum.num 100, JSNum.num 100, JSNum.num 100]
          true)))
        (JSNum.num 200)
      = (TunerState.mk DetectorKey.yin
          [JSNum.num 100, JSNum.num 100, JSNum.num 100, JSNum.num 100, JSNum.num 200]
          true,
         some (JSNum.num 120)) := by
  refine ⟨by with_unfolding_all rfl, by with_unfolding_all rfl⟩

/-- Claim C9, counterexample: `"autocorrelation"` is not a recognized
detector name — the own keys of `this.detectors` are `"yin"` and
`"autocorr"` only — so selecting it leaves the YIN detector active; and
an unrecognized name does not always retain the current detector either:
`"constructor"` is found on the prototype chain, is truthy, and
overwrites the slot with the inherited non-detector value. -/
theorem selectDetector_claim_counterexample :
    Tuner.lookupDetector "autocorrelation" = none ∧
    Tuner.selectDetector (DetectorSlot.strategy DetectorKey.yin) "autocorrelation"
      = DetectorSlot.strategy DetectorKey.yin ∧
    Tuner.selectDetector (DetectorSlot.strategy DetectorKey.yin) "constructor"
      = DetectorSlot.foreign "constructor" := by
  refine ⟨by decide, by decide, by decide⟩

/-- Claim C9 (amended).  The own detector keys are exactly `"yin"` and
`"autocorr"`; a name that is neither an own key nor an `Object.prototype`
member is absent (`undefined`, falsy), so selecting it is a silent no-op
retaining the current detector — no failure value is reported — and after
`selectDetector("yin")` such a name leaves YIN active.  A name of an
`Object.prototype` member, however, passes the truthiness guard and
overwrites the current detector with the inherited non-detector value,
as the `"constructor"` conjunct shows. -/
theorem selectDetector_unrecognized_noop (cur : DetectorSlot) (name : String)
    (h1 : name ≠ "yin") (h2 : name ≠ "autocorr")
    (h3 : name ∉ objectPrototypeMembers) :
    Tuner.selectDetector cur name = cur ∧
    Tuner.selectDetector cur "yin" = DetectorSlot.strategy DetectorKey.yin ∧
    Tuner.selectDetector (Tuner.selectDetector cur "yin") name
      = DetectorSlot.strategy DetectorKey.yin ∧
    Tuner.selectDetector cur "constructor" = DetectorSlot.foreign "constructor" := by
  have hl : Tuner.lookupDetector name = none := by
    unfold Tuner.lookupDetector
    rw [if_neg h1, if_neg h2, if_neg h3]
  have hy : Tuner.selectDetector cur "yin" = DetectorSlot.strategy DetectorKey.yin := by
    with_unfolding_all rfl
  refine ⟨?_, hy, ?_, by with_unfolding_all rfl⟩
  · unfold Tuner.selectDetector
    rw [hl]
  · rw [hy]
    unfold Tuner.selectDetector
    rw [hl]

/-- Claim C9, witness for `selectDetector_unrecognized_noop` with the
name `"nonexistent"`, which is neither an own key nor an
`Object.prototype` member. -/
theorem selectDetector_unrecognized_noop_witness :
    ("nonexistent" : String) ≠ "yin" ∧ ("nonexistent" : String) ≠ "autocorr" ∧
    ("nonexistent" : String) ∉ objectPrototypeMembers ∧
    (Tuner.selectDetector (DetectorSlot.strategy DetectorKey.autocorr) "nonexistent"
        = DetectorSlot.strategy DetectorKey.autocorr ∧
     Tuner.selectDetector
        (Tuner.selectDetector (DetectorSlot.strategy DetectorKey.autocorr) "yin")
        "nonexistent" = DetectorSlot.strategy DetectorKey.yin) :=
  ⟨by decide, by decide, by decide,
   (selectDetector_unrecognized_noop _ _ (by decide) (by decide) (by decide)).1,
   (selectDetector_unrecognized_noop _ _ (by decide) (by decide) (by decide)).2.2.1⟩

/-- Claim C10.  A `NaN` detector result is handled exactly like the `-1`
sentinel by the frame step: the smoothing window is untouched and no note
descriptor is produced for that frame. -/
theorem nan_frequency_ignored (st : TunerState) (f : JSNum)
    (h : JSNum.isNaNJ f = true) :
    Tuner.handleFrequency st f = (st, none) := by
  have hf : f = JSNum.nan := by
    cases f <;> simp_all [JSNum.isNaNJ]
  subst hf
  simp [Tuner.handleFrequency, JSNum.isNaNJ]

/-- Claim C10, witness for `nan_frequency_ignored` at a concrete state. -/
theorem nan_frequency_ignored_witness :
    JSNum.isNaNJ JSNum.nan = true ∧
    Tuner.handleFrequency (TunerState.mk DetectorKey.yin [JSNum.num 220] true) JSNum.nan
      = (TunerState.mk DetectorKey.yin [JSNum.num 220] true, none) :=
  ⟨rfl, nan_frequency_ignored _ _ rfl⟩
